import Mathlib

/-!
Verification of the discord-hvz conversation engine and persistence layer
against its natural-language specification.

The definitions below are a shallow embedding of the Python source:
`chatbot.py` (conversation state machine), `discord_hvz/database.py`
(schema-reconciling persistence layer) and `discord_hvz/chatbot/threads.py`
(side-channel lifecycle manager).  Python dictionaries are modelled as
insertion-ordered association lists, Python exceptions as explicit error
results, and the external regex engine as an abstract matcher function
passed in as a parameter (the code only ever observes match / no-match).
Messages sent over the chat transport and rows written to the database are
collected as an explicit effect list.
-/

set_option linter.unusedVariables false

namespace DiscordHvz

/-- Lookup in an insertion-ordered association list (Python `dict.get`). -/
def alGet {κ ν : Type} [DecidableEq κ] : List (κ × ν) → κ → Option ν
  | [], _ => none
  | (k₀, v₀) :: rest, k => if k₀ = k then some v₀ else alGet rest k

/-- Assignment in an insertion-ordered association list (Python `d[k] = v`):
an existing key keeps its position, a new key is appended at the end. -/
def alSet {κ ν : Type} [DecidableEq κ] : List (κ × ν) → κ → ν → List (κ × ν)
  | [], k, v => [(k, v)]
  | (k₀, v₀) :: rest, k, v =>
      if k₀ = k then (k, v) :: rest else (k₀, v₀) :: alSet rest k v

/-- Removal from an association list (Python `d.pop(k)`). -/
def alRemove {κ ν : Type} [DecidableEq κ] (d : List (κ × ν)) (k : κ) : List (κ × ν) :=
  d.filter fun p => !(decide (p.1 = k))

/-- A conversation question: `Question` in `chatbot.py`.  The three required
attributes are plain strings; the validation pattern and rejection message
are optional.  `valid_regex` holds the configured pattern source text. -/
structure Question where
  name : String
  display_name : String
  query : String
  valid_regex : Option String
  rejection_response : Option String
  deriving DecidableEq, Repr

/-- A conversation script template: `ChatBotScript` in `chatbot.py`.
`kind` is the script kind identifier passed to the constructor.  In the
source, a `kind` property returning `None` shadows the declared dataclass
field — the class as written cannot even be constructed (the property
object becomes a field default, raising at class definition time) — so the
embedding keeps `kind` as the constructor argument; no method modelled
here reads it. -/
structure ChatBotScript where
  kind : String
  beginning : String
  ending : String
  table : String
  _questions : List Question
  deriving DecidableEq, Repr

/-- `ChatBotScript.length`. -/
def ChatBotScript.length (s : ChatBotScript) : Nat :=
  s._questions.length

/-- `ChatBotScript.get_question`: list indexing; `none` models the
`IndexError` Python raises for an out-of-range index. -/
def ChatBotScript.get_question (s : ChatBotScript) (question_number : Nat) : Option Question :=
  s._questions.get? question_number

/-- `ChatBotScript.response_dict`: a dict with every question name as a key
and `None` (here `none`) as every value. -/
def ChatBotScript.response_dict (s : ChatBotScript) : List (String × Option String) :=
  s._questions.foldl (fun output q => alSet output q.name none) []

/-- An inbound chat message.  `content` is the raw text, `clean_content` the
platform-cleaned text (discord resolves mentions etc.), which may differ. -/
structure Message where
  author_id : Int
  channel_private : Bool
  content : String
  clean_content : String
  deriving DecidableEq, Repr

/-- One per-participant conversation session: the `ChatBot` dataclass.
`responses` is the answer map initialized from `script.response_dict`. -/
structure ChatBot where
  script : ChatBotScript
  chat_member : Int
  target_member : Int
  processing : Bool
  reviewing : Bool
  last_asked_question : Nat
  responses : List (String × Option String)
  deriving DecidableEq, Repr

/-- `ChatBot.__post_init__`: responses start from the response dict and the
target member defaults to the chat member. -/
def mkChatBot (script : ChatBotScript) (chat_member : Int) (target_member : Option Int) : ChatBot :=
  { script := script
    chat_member := chat_member
    target_member := target_member.getD chat_member
    processing := false
    reviewing := false
    last_asked_question := 0
    responses := script.response_dict }

/-- An observable side effect of the engine: a direct message to a member,
a reply to the incoming message, or a database write. -/
inductive Effect where
  | send (member : Int) (text : String)
  | reply (text : String)
  | dbWrite (table : String) (row : List (String × String))
  deriving DecidableEq, Repr

/-- Result of running one engine method on a session.  `ok` carries the
mutated session, the effects emitted, and the Python return value of the
method (`none` = the method returned `None`).  `exn` models an uncaught
exception: the session object keeps the mutations made before the raise,
and the effects emitted before the raise already happened. -/
inductive RecvRes where
  | ok (cb : ChatBot) (effects : List Effect) (retval : Option Bool)
  | exn (cb : ChatBot) (effects : List Effect)
  deriving DecidableEq, Repr

/-- The session state carried by a result, whether it returned or raised. -/
def RecvRes.state : RecvRes → ChatBot
  | .ok cb _ _ => cb
  | .exn cb _ => cb

/-- `ChatBot.ask_question`: sends the question prompt, prefixed by the
cancellation notice and the script opening text when applicable, and
records the question number as `last_asked_question`. -/
def ChatBot.ask_question (cb : ChatBot) (question_number : Nat) (starting : Bool)
    (existing_chatbot_kind : Option String) : RecvRes :=
  match cb.script.get_question question_number with
  | none => .exn cb []
  | some question =>
      let msg₀ : String :=
        match existing_chatbot_kind with
        | some k => "Cancelled the previous " ++ k ++ " conversation.\n"
        | none => ""
      let msg₁ : String := if starting then msg₀ ++ (cb.script.beginning ++ "\n\n") else msg₀
      let msg : String := msg₁ ++ question.query
      .ok { cb with last_asked_question := question_number }
        [Effect.send cb.chat_member msg] none

/-- `ChatBot.review` as written: it sets the reviewing flag and starts
building the review message — the header reads `get_question(1)` (an
`IndexError` for a one-question script) — but the loop that should list
the answers iterates `self.script.questions`, an attribute `ChatBotScript`
does not define (the field is `_questions`), so the method raises
`AttributeError` before anything is sent.  Every path is therefore an
exception carrying the session with the reviewing flag set and no
effects. -/
def ChatBot.review (cb : ChatBot) : RecvRes :=
  let cb₁ : ChatBot := { cb with reviewing := true }
  match cb₁.script.get_question 1 with
  | none => .exn cb₁ []
  | some _ => .exn cb₁ []

/-- The tail of `ChatBot.receive` after validation: store the response under
the question name, then either review (when the question was the last one)
or ask the next question. -/
def ChatBot.receive_store (cb : ChatBot) (question : Question) (response : String) : RecvRes :=
  let cb₁ : ChatBot := { cb with responses := alSet cb.responses question.name (some response) }
  if cb.last_asked_question + 1 ≥ cb.script.length then
    cb₁.review
  else
    cb₁.ask_question (cb.last_asked_question + 1) false none

/-- `ChatBot.receive`: handle one inbound message as the answer to the last
asked question.  `rx pattern text` is the external regex engine
(`regex.fullmatch` returning a match or not).  The pattern is checked
against the raw `message.content`, while the stored response is
`message.clean_content`.  The method returns `None` on every path. -/
def ChatBot.receive (rx : String → String → Bool) (cb : ChatBot) (message : Message) : RecvRes :=
  match cb.script.get_question cb.last_asked_question with
  | none => .exn cb []
  | some question =>
      let response : String := message.clean_content
      match question.valid_regex with
      | some pattern =>
          if rx pattern message.content then
            cb.receive_store question response
          else
            match question.rejection_response with
            | some rejection => .ok cb [Effect.reply (rejection ++ "\nPlease answer again.")] none
            | none => .exn cb []
      | none => cb.receive_store question response

/-- The session registry and script catalog: `ChatBotManager`.
`active_chatbots` maps a member id to at most one active session. -/
structure ChatBotManager where
  active_chatbots : List (Int × ChatBot)
  loaded_scripts : List (String × ChatBotScript)
  deriving DecidableEq, Repr

/-- Result of `start_chatbot`: the updated manager and the emitted effects,
or an uncaught exception with the manager state at the raise point. -/
inductive StartRes where
  | ok (mgr : ChatBotManager) (effects : List Effect)
  | exn (mgr : ChatBotManager) (effects : List Effect)
  deriving DecidableEq, Repr

/-- `ChatBotManager.start_chatbot` as written.  When the member already has
an active session, the source reads `existing.kind` — but the `ChatBot`
dataclass defines no `kind` attribute — so the method raises
`AttributeError` before the registry is touched and before anything is
sent: the old session stays, the new one never starts.  Without an
existing session (`existing` is `None`, so `existing.kind` is never read),
a fresh session built from a deep copy of the script template is
registered and started (question 0, opening text, no cancellation
notice). -/
def ChatBotManager.start_chatbot (mgr : ChatBotManager) (chatbot_kind : String)
    (chat_member : Int) (target_member : Option Int) : StartRes :=
  match alGet mgr.active_chatbots chat_member with
  | some _ => .exn mgr []
  | none =>
      match alGet mgr.loaded_scripts chatbot_kind with
      | none => .exn mgr []
      | some script =>
          let new_chatbot : ChatBot := mkChatBot script chat_member target_member
          let mgr₁ : ChatBotManager :=
            { mgr with active_chatbots := alSet mgr.active_chatbots chat_member new_chatbot }
          match new_chatbot.ask_question 0 true none with
          | .ok cb effects _ =>
              .ok { mgr₁ with active_chatbots := alSet mgr₁.active_chatbots chat_member cb }
                effects
          | .exn cb effects =>
              .exn { mgr₁ with active_chatbots := alSet mgr₁.active_chatbots chat_member cb }
                effects

/-- `ChatBotManager.on_message`: dispatch a private message to the sender's
active session, guarded by the `processing` flag.  An exception abandons
the session (error notice, registry entry removed).  `receive` returns
`None` on every path, so the `completed` branch that would remove the
session never fires and the session is kept with `processing` reset. -/
def ChatBotManager.on_message (rx : String → String → Bool) (mgr : ChatBotManager)
    (message : Message) : ChatBotManager × List Effect :=
  if !message.channel_private then (mgr, [])
  else
    match alGet mgr.active_chatbots message.author_id with
    | none => (mgr, [])
    | some chatbot =>
        if chatbot.processing then (mgr, [])
        else
          let cb₁ : ChatBot := { chatbot with processing := true }
          match ChatBot.receive rx cb₁ message with
          | .exn _ effects =>
              ({ mgr with active_chatbots := alRemove mgr.active_chatbots message.author_id },
               effects ++ [Effect.send chatbot.chat_member
                 "The chatbot had a critical error. You will need to retry from the beginning."])
          | .ok cb₂ effects completed =>
              match completed with
              | some true =>
                  ({ mgr with active_chatbots := alRemove mgr.active_chatbots message.author_id },
                   effects)
              | _ =>
                  let cb₃ : ChatBot := { cb₂ with processing := false }
                  ({ mgr with active_chatbots := alSet mgr.active_chatbots message.author_id cb₃ },
                   effects)

/-- A key of a Python dictionary: the question loader looks keys up both by
attribute name (a string) and — in the coupled-attribute check as written —
by the integer loop index. -/
inductive PyKey where
  | int (n : Int)
  | str (s : String)
  deriving DecidableEq, Repr

/-- A value of a question-data dictionary: a string, or something that is
not a string (any other YAML value). -/
inductive PyVal where
  | str (s : String)
  | nonstr
  deriving DecidableEq, Repr

/-- The mutable attribute state of a `Question` while `__post_init__` runs:
every field starts as `None` (the dataclass defaults). -/
structure QuestionDraft where
  name : Option String
  display_name : Option String
  query : Option String
  valid_regex : Option String
  rejection_response : Option String
  deriving DecidableEq, Repr

/-- `setattr(self, key, content)` for the recognized question attributes;
an unrecognized key is logged and ignored, leaving the fields unchanged. -/
def draftSet (qd : QuestionDraft) (key : String) (value : String) : QuestionDraft :=
  if key = "name" then { qd with name := some value }
  else if key = "display_name" then { qd with display_name := some value }
  else if key = "query" then { qd with query := some value }
  else if key = "valid_regex" then { qd with valid_regex := some value }
  else if key = "rejection_response" then { qd with rejection_response := some value }
  else qd

/-- The assignment loop of `Question.__post_init__`: every value must be a
string, recognized attribute names are assigned, unknown string keys are
ignored; an integer key reaches `hasattr(self, key)` which raises. -/
def assignAttrs : List (PyKey × PyVal) → QuestionDraft → Except String QuestionDraft
  | [], qd => .ok qd
  | (key, value) :: rest, qd =>
      match value with
      | PyVal.nonstr => .error "Attribute of question does not evaluate to a string."
      | PyVal.str s =>
          match key with
          | PyKey.int _ => .error "TypeError: attribute name must be string"
          | PyKey.str k => assignAttrs rest (draftSet qd k s)

/-- `Question.__post_init__` as written.  The required-attribute check tests
the three required keys.  The coupled-attribute check, following the source
exactly, iterates `for i in range(0, 1)` (so only `i = 0`) and tests
`question_data.get(i)` — a lookup of the integer key `0`, not of the
attribute name `pair[0]` — before testing `pair[1]`
(`"rejection_response"`). -/
def load_question (question_data : List (PyKey × PyVal)) : Except String Question :=
  if (alGet question_data (PyKey.str "name")).isNone then
    .error "Question missing required attribute name. Check scripts.yml"
  else if (alGet question_data (PyKey.str "display_name")).isNone then
    .error "Question missing required attribute display_name. Check scripts.yml"
  else if (alGet question_data (PyKey.str "query")).isNone then
    .error "Question missing required attribute query. Check scripts.yml"
  else if (alGet question_data (PyKey.int 0)).isSome
      && (alGet question_data (PyKey.str "rejection_response")).isNone then
    .error "Missing coupled attribute"
  else
    match assignAttrs question_data ⟨none, none, none, none, none⟩ with
    | .error e => .error e
    | .ok draft =>
        match draft.name, draft.display_name, draft.query with
        | some n, some dn, some qy =>
            .ok ⟨n, dn, qy, draft.valid_regex, draft.rejection_response⟩
        | _, _, _ => .error "Question missing required attribute. Check scripts.yml"

/-- The column type enumeration of `database.py` (`ValidColumnType`). -/
inductive ValidColumnType where
  | INTEGER
  | INCR_INTEGER
  | BOOLEAN
  | STRING
  | DATETIME
  deriving DecidableEq, Repr

/-- One physical table: its column names and its rows.  A row is an ordered
mapping from column name to value. -/
structure DbTable where
  columns : List String
  rows : List (List (String × String))
  deriving DecidableEq, Repr

/-- The physical table store (the sqlite file): table name to table. -/
structure DbStore where
  tables : List (String × DbTable)
  deriving DecidableEq, Repr

/-- The `ConfigError` message raised by `HvzDb.__post_init__` when a
configured column is missing from an existing physical table. -/
def config_error_message (script_file database_file column_name table_name : String) : String :=
  "'" ++ script_file ++ "' says that '" ++ column_name ++ "' is needed for the '"
    ++ table_name ++ "' table but that table already exists in the database, and so the column "
    ++ "cannot be added. Delete your database file (" ++ database_file
    ++ ") and restart the bot to fix this. If left alone, this will cause problems."

/-- The per-table column verification of `HvzDb.__post_init__`: the first
configured column name that is not a physical column, if any. -/
def findMissingColumn : List (String × ValidColumnType) → List String → Option String
  | [], _ => none
  | (column_name, _) :: rest, physical =>
      if column_name ∈ physical then findMissingColumn rest physical
      else some column_name

/-- Python `str.casefold`, which the source applies to ASCII table and
column names: character-wise lower-casing. -/
def pyCasefold (s : String) : String := ⟨s.data.map Char.toLower⟩

/-- A table object built by `_add_configured_table`: the table name and all
column names are lower-cased (`casefold`). -/
def mkConfiguredTable (configured_columns : List (String × ValidColumnType)) : DbTable :=
  { columns := configured_columns.map fun p => pyCasefold p.1
    rows := [] }

/-- The reconciliation loop of `HvzDb.__post_init__` over the configured
tables: an existing physical table has every configured column verified
(a missing one raises `ConfigError`); a table absent from the store is
registered in the metadata, to be created afterwards.  Returns the list of
tables pending creation. -/
def post_init_loop (script_file database_file : String) (store : DbStore) :
    List (String × List (String × ValidColumnType)) → Except String (List (String × DbTable))
  | [] => .ok []
  | (table_name, configured_columns) :: rest =>
      match alGet store.tables table_name with
      | some table =>
          match findMissingColumn configured_columns table.columns with
          | some column_name =>
              .error (config_error_message script_file database_file column_name table_name)
          | none => post_init_loop script_file database_file store rest
      | none =>
          match post_init_loop script_file database_file store rest with
          | .error e => .error e
          | .ok pending => .ok ((pyCasefold table_name, mkConfiguredTable configured_columns) :: pending)

/-- `HvzDb.__post_init__`: reconcile every configured table against the
physical store, then — only after the whole loop has passed — run
`metadata.create_all`, which creates the pending tables.  Returns the
physical store after startup together with the raised error, if any: on a
`ConfigError` the store is returned untouched, since `create_all` is never
reached. -/
def hvz_post_init (script_file database_file : String) (store : DbStore)
    (database_config : List (String × List (String × ValidColumnType))) :
    DbStore × Option String :=
  match post_init_loop script_file database_file store database_config with
  | .error e => (store, some e)
  | .ok pending => ({ store with tables := store.tables ++ pending }, none)

/-- `HvzDb._table_updated`: called after a table change.  When the table is
registered for mirroring (its name is a key of the configured
`database_config`), the notification hook (`sheet_interface.update_table`)
is invoked with the table identity; any exception from the hook is caught
and logged.  The returned log records each hook invocation as the table
identity paired with whether the hook succeeded. -/
def table_updated (database_config : List String) (hook : String → Except String Unit)
    (table_name : String) : List (String × Bool) :=
  if table_name ∈ database_config then
    match hook table_name with
    | .ok _ => [(table_name, true)]
    | .error _ => [(table_name, false)]
  else []

/-- Row predicate used by the update / delete statements: the row matches
when its search column holds the search value. -/
def rowMatches (row : List (String × String)) (column value : String) : Bool :=
  alGet row column == some value

/-- `HvzDb.add_row`: look the table up under the lower-cased selection,
insert the row with lower-cased column names, then notify
`_table_updated`.  Errors model `KeyError` for an unknown table. -/
def HvzDb.add_row (database_config : List String) (hook : String → Except String Unit)
    (store : DbStore) (table_selection : String) (input_row : List (String × String)) :
    Except String (DbStore × List (String × Bool)) :=
  match alGet store.tables (pyCasefold table_selection) with
  | none => .error "KeyError: unknown table"
  | some table =>
      let row : List (String × String) :=
        input_row.foldl (fun r p => alSet r (pyCasefold p.1) p.2) []
      let table₁ : DbTable := { table with rows := table.rows ++ [row] }
      let store₁ : DbStore :=
        { store with tables := alSet store.tables (pyCasefold table_selection) table₁ }
      .ok (store₁, table_updated database_config hook (pyCasefold table_selection))

/-- `HvzDb.edit_row`: validate the table and both columns, update every
matching row, then — only when at least one row matched — notify
`_table_updated` and return `True`; otherwise raise `ValueError`. -/
def HvzDb.edit_row (database_config : List String) (hook : String → Except String Unit)
    (store : DbStore) (table search_column search_value target_column target_value : String) :
    Except String (DbStore × Bool × List (String × Bool)) :=
  match alGet store.tables table with
  | none => .error "KeyError: unknown table"
  | some tab =>
      if search_column ∈ tab.columns then
        if target_column ∈ tab.columns then
          let newRows : List (List (String × String)) :=
            tab.rows.map fun r =>
              if rowMatches r search_column search_value then alSet r target_column target_value
              else r
          let rowcount : Nat := (tab.rows.filter fun r => rowMatches r search_column search_value).length
          if rowcount > 0 then
            let store₁ : DbStore :=
              { store with tables := alSet store.tables table { tab with rows := newRows } }
            .ok (store₁, true, table_updated database_config hook table)
          else .error "ValueError: search value not found in search column"
        else .error "ValueError: not a column"
      else .error "ValueError: not a column"

/-- `HvzDb.delete_row`: validate the table and the search column, delete
every matching row, then — only when at least one row was deleted — notify
`_table_updated` and return `True`; otherwise raise `ValueError`. -/
def HvzDb.delete_row (database_config : List String) (hook : String → Except String Unit)
    (store : DbStore) (table search_column search_value : String) :
    Except String (DbStore × Bool × List (String × Bool)) :=
  match alGet store.tables table with
  | none => .error "KeyError: unknown table"
  | some tab =>
      if search_column ∈ tab.columns then
        let remaining : List (List (String × String)) :=
          tab.rows.filter fun r => !(rowMatches r search_column search_value)
        if tab.rows.length - remaining.length < 1 then
          .error "ValueError: could not find rows"
        else
          let store₁ : DbStore :=
            { store with tables := alSet store.tables table { tab with rows := remaining } }
          .ok (store₁, true, table_updated database_config hook table)
      else .error "ValueError: not a column"

/-- One record of the side-channel lifecycle table kept by the
`ThreadManager` (`threads` table: thread id, member id, chatbot type). -/
structure ThreadRow where
  thread_id : Int
  member_id : Int
  chatbot_type : String
  deriving DecidableEq, Repr

/-- The loop of `ThreadManager.on_ready` over a snapshot of the lifecycle
table.  For each recorded side-channel: when it no longer exists in the
guild, its database record is removed; otherwise the side-channel itself
is deleted from the guild — and, as in the source, its database record is
left in place.  Returns the final table rows and guild thread list. -/
def thread_on_ready_loop (guild : List Int) (table_rows : List ThreadRow) :
    List ThreadRow → List ThreadRow × List Int
  | [] => (table_rows, guild)
  | row :: rest =>
      if row.thread_id ∈ guild then
        thread_on_ready_loop (guild.filter fun t => !(decide (t = row.thread_id))) table_rows rest
      else
        thread_on_ready_loop guild
          (table_rows.filter fun r => !(decide (r.thread_id = row.thread_id))) rest

/-- `ThreadManager.on_ready`: read the lifecycle table; when it is empty do
nothing, otherwise run the cleanup loop over its rows. -/
def thread_manager_on_ready (guild : List Int) (table : List ThreadRow) :
    List ThreadRow × List Int :=
  if table.length = 0 then (table, guild)
  else thread_on_ready_loop guild table table

/-! ### Concrete fixtures used by the claim theorems and witnesses -/

/-- Whether an effect is a database write. -/
def Effect.isDbWrite : Effect → Bool
  | .dbWrite _ _ => true
  | _ => false

/-- The `name` question of the registration example script. -/
def q_name : Question := ⟨"name", "Name", "What is your name?", none, none⟩

/-- The `email` question of the registration example script. -/
def q_email : Question := ⟨"email", "Email", "What is your email?", none, none⟩

/-- The registration example script with questions `[name, email]`. -/
def registration_script : ChatBotScript :=
  ⟨"registration", "Welcome to HvZ registration!", "All done.", "members", [q_name, q_email]⟩

/-- A registration session in the Reviewing state: both answers collected,
the review message already sent. -/
def cb_reviewing : ChatBot :=
  { script := registration_script
    chat_member := 7
    target_member := 7
    processing := false
    reviewing := true
    last_asked_question := 1
    responses := [("name", some "Alice"), ("email", some "alice@example.com")] }

/-- A session registry holding the reviewing session for member `7`. -/
def mgr_reviewing : ChatBotManager :=
  ⟨[(7, cb_reviewing)], [("registration", registration_script)]⟩

/-- A trivial regex engine: every pattern matches (the fixture questions
carry no validation pattern, so it is never consulted). -/
def rx0 : String → String → Bool := fun _ _ => true

/-- The affirmative review reply. -/
def msg_yes : Message := ⟨7, true, "yes", "yes"⟩

/-- A review reply naming the display name of the `email` question. -/
def msg_email : Message := ⟨7, true, "email", "email"⟩

/-! ### Association list lemmas -/

theorem alGet_alSet_self {κ ν : Type} [DecidableEq κ] (d : List (κ × ν)) (k : κ) (v : ν) :
    alGet (alSet d k v) k = some v := by
  induction d with
  | nil => simp [alSet, alGet]
  | cons p rest ih =>
      by_cases h : p.1 = k
      · simp [alSet, alGet, h]
      · simp [alSet, alGet, h, ih]

theorem alGet_alSet_ne {κ ν : Type} [DecidableEq κ] (d : List (κ × ν)) (k k' : κ) (v : ν)
    (h : k' ≠ k) : alGet (alSet d k v) k' = alGet d k' := by
  induction d with
  | nil => simp [alSet, alGet, h, Ne.symm h]
  | cons p rest ih =>
      by_cases hp : p.1 = k
      · subst hp
        simp [alSet, alGet, h, Ne.symm h]
      · simp only [alSet, if_neg hp]
        by_cases hp' : p.1 = k'
        · simp [alGet, hp']
        · simp [alGet, hp', ih]

theorem alSet_alSet {κ ν : Type} [DecidableEq κ] (d : List (κ × ν)) (k : κ) (v v' : ν) :
    alSet (alSet d k v) k v' = alSet d k v' := by
  induction d with
  | nil => simp [alSet]
  | cons p rest ih =>
      by_cases h : p.1 = k
      · simp [alSet, h]
      · simp [alSet, h, ih]

/-- C1: in the code as written, `ChatBot.receive` has no Reviewing-state
branch.  For a session in the Reviewing state, the affirmative reply
`"yes"` is handled as an answer to the last asked question, after which
`review()` raises (`AttributeError` on `script.questions`); the dispatcher
then sends the critical-error notice and drops the session.  Nothing is
ever written to the database, and the claimed Reviewing → Committed
transition (one row written, session removed normally) does not happen. -/
theorem c1_reviewing_yes_no_commit :
    (ChatBotManager.on_message rx0 mgr_reviewing msg_yes).2
      = [Effect.send 7 "The chatbot had a critical error. You will need to retry from the beginning."]
    ∧ ((ChatBotManager.on_message rx0 mgr_reviewing msg_yes).2.any Effect.isDbWrite) = false
    ∧ (ChatBotManager.on_message rx0 mgr_reviewing msg_yes).1.active_chatbots = [] := by
  refine ⟨rfl, rfl, rfl⟩

/-! ### C2 — Reviewing + question display name -/

/-- C2: in the code as written, a review reply naming a question (here
`"email"`, the display name of the email question) is not special-cased:
it is handled as an answer to the last asked question (overwriting the
collected email answer), after which `review()` raises and the dispatcher
sends the critical-error notice and drops the session.  The email prompt
is never re-sent and the session never returns to asking that question. -/
theorem c2_reviewing_edit_not_reprompted :
    (ChatBotManager.on_message rx0 mgr_reviewing msg_email).2
      = [Effect.send 7 "The chatbot had a critical error. You will need to retry from the beginning."]
    ∧ Effect.send 7 "What is your email?" ∉ (ChatBotManager.on_message rx0 mgr_reviewing msg_email).2
    ∧ (ChatBotManager.on_message rx0 mgr_reviewing msg_email).1.active_chatbots = [] := by
  refine ⟨rfl, by decide, rfl⟩

/-! ### C6 — coupled question attributes -/

/-- Question data supplying a validation pattern but no rejection message. -/
def c6_regex_only : List (PyKey × PyVal) :=
  [(PyKey.str "name", PyVal.str "email"),
   (PyKey.str "display_name", PyVal.str "Email"),
   (PyKey.str "query", PyVal.str "What is your email?"),
   (PyKey.str "valid_regex", PyVal.str "\\w+@\\w+")]

/-- Question data supplying a rejection message but no validation pattern. -/
def c6_rejection_only : List (PyKey × PyVal) :=
  [(PyKey.str "name", PyVal.str "email"),
   (PyKey.str "display_name", PyVal.str "Email"),
   (PyKey.str "query", PyVal.str "What is your email?"),
   (PyKey.str "rejection_response", PyVal.str "Not a valid email.")]

/-- Question data with both optional attributes absent. -/
def c6_freeform : List (PyKey × PyVal) :=
  [(PyKey.str "name", PyVal.str "name"),
   (PyKey.str "display_name", PyVal.str "Name"),
   (PyKey.str "query", PyVal.str "What is your name?")]

/-- C6: the coupled-attribute check of `Question.__post_init__` never
fires, because it looks up the integer loop index (`question_data.get(i)`
with `i = 0`) instead of the attribute name, and `range(0, 1)` covers only
`i = 0`.  A question with `valid_regex` but no `rejection_response` — and
one with `rejection_response` but no `valid_regex` — both load
successfully, contradicting the claimed configuration error.  (A question
with both absent does load successfully, as claimed.) -/
theorem c6_coupled_attributes_not_enforced :
    load_question c6_regex_only
      = Except.ok ⟨"email", "Email", "What is your email?", some "\\w+@\\w+", none⟩
    ∧ load_question c6_rejection_only
      = Except.ok ⟨"email", "Email", "What is your email?", none, some "Not a valid email."⟩
    ∧ load_question c6_freeform
      = Except.ok ⟨"name", "Name", "What is your name?", none, none⟩ := by
  refine ⟨rfl, rfl, rfl⟩

/-! ### C8 — side-channel cleanup at startup (counterexample) -/

/-- A lifecycle table recording two side-channels: thread `1` still exists
in the guild, thread `2` does not. -/
def c8_table : List ThreadRow := [⟨1, 10, "registration"⟩, ⟨2, 11, "tag_logging"⟩]

/-- C8 counterexample: with thread `1` still existing and thread `2` gone,
startup deletes thread `1` from the guild but keeps its lifecycle record,
and only removes the record of thread `2`.  The lifecycle table does not
end empty, contradicting the claim that every processed record is
removed. -/
theorem c8_counterexample :
    thread_manager_on_ready [1] c8_table = ([⟨1, 10, "registration"⟩], [])
    ∧ ([⟨1, 10, "registration"⟩] : List ThreadRow) ≠ [] := by
  exact ⟨rfl, by decide⟩

/-! ### C3 — invalid answer is rejected in place -/

/-- C3: an answer failing the validation pattern of the current question
leaves the whole session unchanged — answer map and question index
included — and the participant is sent exactly the rejection message
followed by the instruction to answer again. -/
theorem c3_invalid_answer_rejected (rx : String → String → Bool) (cb : ChatBot) (msg : Message)
    (q : Question) (p r : String)
    (hq : cb.script.get_question cb.last_asked_question = some q)
    (hp : q.valid_regex = some p)
    (hr : q.rejection_response = some r)
    (hfail : rx p msg.content = false) :
    ChatBot.receive rx cb msg
      = RecvRes.ok cb [Effect.reply (r ++ "\nPlease answer again.")] none := by
  unfold ChatBot.receive
  simp [hq, hp, hr, hfail]

/-- A tag-code question carrying a validation pattern. -/
def q_code : Question := ⟨"tag_code", "Tag code", "Enter the tag code.", some "[0-9]+", some "Numbers only."⟩

/-- A one-question script around the tag-code question. -/
def code_script : ChatBotScript := ⟨"tag_logging", "Report a tag.", "Done.", "tags", [q_code]⟩

/-- A fresh session for the tag-code script. -/
def cb_code : ChatBot := mkChatBot code_script 5 none

/-- A regex engine that rejects every input. -/
def rxF : String → String → Bool := fun _ _ => false

/-- A non-numeric answer to the tag-code question. -/
def msg_abc : Message := ⟨5, true, "abc", "abc"⟩

/-- Witness for C3 at a concrete rejected answer. -/
theorem c3_witness :
    ChatBot.receive rxF cb_code msg_abc
      = RecvRes.ok cb_code [Effect.reply ("Numbers only." ++ "\nPlease answer again.")] none :=
  c3_invalid_answer_rejected rxF cb_code msg_abc q_code "[0-9]+" "Numbers only." rfl rfl rfl rfl

/-! ### C4 — valid answer is stored; last answer crashes the review -/

/-- A fresh registration session at the first question. -/
def cb_fresh : ChatBot := mkChatBot registration_script 7 none

/-- A registry with no active session for member `7` but the registration
script loaded. -/
def mgr_fresh : ChatBotManager := ⟨[], [("registration", registration_script)]⟩

/-- C5: in the code as written, starting a new script for a member who
already has an active session raises `AttributeError` at `existing.kind`
(the `ChatBot` dataclass has no `kind` attribute) before the registry is
touched: the old session remains the only active one, nothing is cancelled
and no opening prompt is sent — the claimed replacement never happens.
The same call without an existing session succeeds, registering one fresh
session and sending the opening prompt, which shows the intended flow the
slip disables. -/
theorem c5_restart_raises_attribute_error :
    ChatBotManager.start_chatbot mgr_reviewing "registration" 7 none
      = StartRes.exn mgr_reviewing []
    ∧ ChatBotManager.start_chatbot mgr_fresh "registration" 7 none
      = StartRes.ok ⟨[(7, cb_fresh)], [("registration", registration_script)]⟩
          [Effect.send 7 "Welcome to HvZ registration!\n\nWhat is your name?"] := by
  refine ⟨rfl, rfl⟩

/-! ### C7 — schema reconciliation against an existing table -/

/-- `needle` occurs verbatim inside `msg`. -/
def mentions (needle msg : String) : Prop :=
  ∃ l r : List Char, msg.data = l ++ needle.data ++ r

/-- The reconciliation error message names the offending column. -/
theorem mentions_column_config_error (sf df c t : String) :
    mentions c (config_error_message sf df c t) := by
  refine ⟨("'" ++ sf ++ "' says that '").data, ?_, ?_⟩
  · exact ("' is needed for the '" ++ t
      ++ "' table but that table already exists in the database, and so the column "
      ++ "cannot be added. Delete your database file (" ++ df
      ++ ") and restart the bot to fix this. If left alone, this will cause problems.").data
  · simp [config_error_message, String.data_append]

/-- The reconciliation error message names the offending table. -/
theorem mentions_table_config_error (sf df c t : String) :
    mentions t (config_error_message sf df c t) := by
  refine ⟨("'" ++ sf ++ "' says that '" ++ c ++ "' is needed for the '").data, ?_, ?_⟩
  · exact ("' table but that table already exists in the database, and so the column "
      ++ "cannot be added. Delete your database file (" ++ df
      ++ ") and restart the bot to fix this. If left alone, this will cause problems.").data
  · simp [config_error_message, String.data_append]

/-- A found missing column is a configured column absent physically. -/
theorem findMissingColumn_some (cols : List (String × ValidColumnType)) (phys : List String)
    (c : String) (h : findMissingColumn cols phys = some c) :
    (∃ ty, (c, ty) ∈ cols) ∧ c ∉ phys := by
  induction cols with
  | nil => simp [findMissingColumn] at h
  | cons p rest ih =>
      by_cases hp : p.1 ∈ phys
      · simp only [findMissingColumn, if_pos hp] at h
        obtain ⟨⟨ty, hty⟩, hc⟩ := ih h
        exact ⟨⟨ty, List.mem_cons_of_mem _ hty⟩, hc⟩
      · simp only [findMissingColumn, if_neg hp] at h
        cases h
        exact ⟨⟨p.2, by simp⟩, hp⟩

/-- When no missing column is found, every configured column is present. -/
theorem findMissingColumn_none (cols : List (String × ValidColumnType)) (phys : List String)
    (h : findMissingColumn cols phys = none) :
    ∀ c ty, (c, ty) ∈ cols → c ∈ phys := by
  induction cols with
  | nil =>
      intro c ty hc
      simp at hc
  | cons p rest ih =>
      by_cases hp : p.1 ∈ phys
      · simp only [findMissingColumn, if_pos hp] at h
        intro c ty hc
        rcases List.mem_cons.mp hc with h1 | h2
        · have hcp : c = p.1 := congrArg Prod.fst h1
          rw [hcp]
          exact hp
        · exact ih h c ty h2
      · simp [findMissingColumn, if_neg hp] at h

/-- When some configured table exists physically with a configured column
missing, the reconciliation loop raises a `ConfigError` whose message is
built from an offending column and its table. -/
theorem post_init_loop_error (sf df : String) (store : DbStore)
    (cfg : List (String × List (String × ValidColumnType)))
    (table_name : String) (cols : List (String × ValidColumnType)) (tab : DbTable)
    (column_name : String) (ty : ValidColumnType)
    (hmem : (table_name, cols) ∈ cfg)
    (hphys : alGet store.tables table_name = some tab)
    (hcol : (column_name, ty) ∈ cols)
    (hmissing : column_name ∉ tab.columns) :
    ∃ c t cols' tab',
      (t, cols') ∈ cfg
      ∧ alGet store.tables t = some tab'
      ∧ (∃ ty', (c, ty') ∈ cols')
      ∧ c ∉ tab'.columns
      ∧ post_init_loop sf df store cfg = .error (config_error_message sf df c t) := by
  induction cfg with
  | nil => simp at hmem
  | cons entry rest ih =>
      obtain ⟨t₀, cols₀⟩ := entry
      cases hget : alGet store.tables t₀ with
      | some tab₀ =>
          cases hfind : findMissingColumn cols₀ tab₀.columns with
          | some c₀ =>
              obtain ⟨⟨ty₀, hty₀⟩, hc₀⟩ := findMissingColumn_some _ _ _ hfind
              refine ⟨c₀, t₀, cols₀, tab₀, List.mem_cons_self _ _, hget, ⟨ty₀, hty₀⟩, hc₀, ?_⟩
              simp only [post_init_loop, hget, hfind]
          | none =>
              have hmem' : (table_name, cols) ∈ rest := by
                rcases List.mem_cons.mp hmem with heq | h'
                · exfalso
                  have ht : table_name = t₀ := congrArg Prod.fst heq
                  have hcols : cols = cols₀ := congrArg Prod.snd heq
                  rw [ht] at hphys
                  rw [hphys] at hget
                  cases hget
                  exact hmissing (findMissingColumn_none _ _ hfind column_name ty (hcols ▸ hcol))
                · exact h'
              obtain ⟨c, t, cols', tab', hm, hg, hc, hnc, herr⟩ := ih hmem'
              refine ⟨c, t, cols', tab', List.mem_cons_of_mem _ hm, hg, hc, hnc, ?_⟩
              simp only [post_init_loop, hget, hfind, herr]
      | none =>
          have hmem' : (table_name, cols) ∈ rest := by
            rcases List.mem_cons.mp hmem with heq | h'
            · exfalso
              have ht : table_name = t₀ := congrArg Prod.fst heq
              rw [ht] at hphys
              rw [hphys] at hget
              cases hget
            · exact h'
          obtain ⟨c, t, cols', tab', hm, hg, hc, hnc, herr⟩ := ih hmem'
          refine ⟨c, t, cols', tab', List.mem_cons_of_mem _ hm, hg, hc, hnc, ?_⟩
          simp only [post_init_loop, hget, herr]

/-- C7: reconciling a configuration against a store in which some
configured table already exists but lacks a configured column raises a
`ConfigError` whose message names an offending column and its table — and
the physical store is returned untouched: `create_all` is never reached,
so no tables are created. -/
theorem c7_missing_column_config_error (sf df : String) (store : DbStore)
    (cfg : List (String × List (String × ValidColumnType)))
    (table_name : String) (cols : List (String × ValidColumnType)) (tab : DbTable)
    (column_name : String) (ty : ValidColumnType)
    (hmem : (table_name, cols) ∈ cfg)
    (hphys : alGet store.tables table_name = some tab)
    (hcol : (column_name, ty) ∈ cols)
    (hmissing : column_name ∉ tab.columns) :
    ∃ msg,
      hvz_post_init sf df store cfg = (store, some msg)
      ∧ ∃ c t,
          mentions c msg ∧ mentions t msg
          ∧ ∃ cols' tab',
              (t, cols') ∈ cfg
              ∧ alGet store.tables t = some tab'
              ∧ (∃ ty', (c, ty') ∈ cols')
              ∧ c ∉ tab'.columns := by
  obtain ⟨c, t, cols', tab', hm, hg, hc, hnc, herr⟩ :=
    post_init_loop_error sf df store cfg table_name cols tab column_name ty
      hmem hphys hcol hmissing
  refine ⟨config_error_message sf df c t, ?_, c, t,
    mentions_column_config_error sf df c t, mentions_table_config_error sf df c t,
    cols', tab', hm, hg, hc, hnc⟩
  unfold hvz_post_init
  rw [herr]

/-- A store already holding a `members` table without an `email` column. -/
def c7_store : DbStore := ⟨[("members", ⟨["id", "name"], []⟩)]⟩

/-- A configuration requiring `members.email` plus a new `tags` table. -/
def c7_cfg : List (String × List (String × ValidColumnType)) :=
  [("members", [("id", ValidColumnType.INTEGER), ("email", ValidColumnType.STRING)]),
   ("tags", [("tag_id", ValidColumnType.INTEGER)])]

/-- Witness for C7: reconciling `c7_cfg` against `c7_store` errors out and
creates nothing. -/
theorem c7_witness :
    ∃ msg,
      hvz_post_init "scripts.yml" "hvzdb.db" c7_store c7_cfg = (c7_store, some msg)
      ∧ ∃ c t,
          mentions c msg ∧ mentions t msg
          ∧ ∃ cols' tab',
              (t, cols') ∈ c7_cfg
              ∧ alGet c7_store.tables t = some tab'
              ∧ (∃ ty', (c, ty') ∈ cols')
              ∧ c ∉ tab'.columns :=
  c7_missing_column_config_error "scripts.yml" "hvzdb.db" c7_store c7_cfg
    "members" [("id", ValidColumnType.INTEGER), ("email", ValidColumnType.STRING)]
    ⟨["id", "name"], []⟩ "email" ValidColumnType.STRING
    (by simp [c7_cfg]) rfl (by simp) (by decide)

/-! ### C8 — amended behavior of the startup cleanup -/

/-- Characterization of the startup cleanup loop: with pairwise-distinct
recorded thread ids, it removes from the row set every record whose
side-channel no longer exists, and removes from the guild every
still-recorded side-channel. -/
theorem thread_loop_spec (snap : List ThreadRow) :
    ∀ (guild : List Int) (rows : List ThreadRow),
      ((snap.map fun r => r.thread_id).Nodup) →
      thread_on_ready_loop guild rows snap
        = (rows.filter fun r =>
             !(decide (r.thread_id ∈
                 (snap.filter fun s => !(decide (s.thread_id ∈ guild))).map
                   fun s => s.thread_id)),
           guild.filter fun g => !(decide (g ∈ snap.map fun s => s.thread_id))) := by
  induction snap with
  | nil =>
      intro guild rows _
      simp [thread_on_ready_loop]
  | cons s rest ih =>
      intro guild rows hnodup
      rw [List.map_cons] at hnodup
      obtain ⟨hns, hnr⟩ := List.nodup_cons.mp hnodup
      by_cases hs : s.thread_id ∈ guild
      · have hloop : thread_on_ready_loop guild rows (s :: rest)
            = thread_on_ready_loop (guild.filter fun t => !(decide (t = s.thread_id)))
                rows rest := by
          simp [thread_on_ready_loop, hs]
        rw [hloop, ih _ _ hnr]
        have hfst : (rest.filter fun x =>
              !(decide (x.thread_id ∈ guild.filter fun t => !(decide (t = s.thread_id)))))
            = rest.filter fun x => !(decide (x.thread_id ∈ guild)) := by
          apply List.filter_congr
          intro x hx
          have hxs : x.thread_id ≠ s.thread_id := by
            intro h
            exact hns (h ▸ List.mem_map_of_mem (fun r => r.thread_id) hx)
          by_cases hxg : x.thread_id ∈ guild <;> simp [List.mem_filter, hxg, hxs]
        have hsnd : ((guild.filter fun t => !(decide (t = s.thread_id))).filter
              fun g => !(decide (g ∈ rest.map fun r => r.thread_id)))
            = guild.filter fun g => !(decide (g ∈ (s :: rest).map fun r => r.thread_id)) := by
          rw [List.filter_filter]
          apply List.filter_congr
          intro g _
          by_cases h1 : g = s.thread_id <;> by_cases h2 : g ∈ rest.map fun r => r.thread_id <;>
            simp [h1, h2]
        rw [hfst, hsnd]
        have hdead : ((s :: rest).filter fun x => !(decide (x.thread_id ∈ guild)))
            = rest.filter fun x => !(decide (x.thread_id ∈ guild)) := by
          simp [List.filter_cons, hs]
        rw [hdead]
      · have hloop : thread_on_ready_loop guild rows (s :: rest)
            = thread_on_ready_loop guild
                (rows.filter fun r => !(decide (r.thread_id = s.thread_id))) rest := by
          simp [thread_on_ready_loop, hs]
        rw [hloop, ih _ _ hnr]
        have hdead : ((s :: rest).filter fun x => !(decide (x.thread_id ∈ guild)))
            = s :: (rest.filter fun x => !(decide (x.thread_id ∈ guild))) := by
          simp [List.filter_cons, hs]
        rw [hdead]
        have hfst : ((rows.filter fun r => !(decide (r.thread_id = s.thread_id))).filter
              fun r => !(decide (r.thread_id ∈
                (rest.filter fun x => !(decide (x.thread_id ∈ guild))).map
                  fun x => x.thread_id)))
            = rows.filter fun r => !(decide (r.thread_id ∈
                (s :: rest.filter fun x => !(decide (x.thread_id ∈ guild))).map
                  fun x => x.thread_id)) := by
          rw [List.filter_filter]
          apply List.filter_congr
          intro r _
          by_cases h1 : r.thread_id = s.thread_id <;>
            by_cases h2 : r.thread_id ∈
              (rest.filter fun x => !(decide (x.thread_id ∈ guild))).map
                fun x => x.thread_id <;>
            simp [h1, h2]
        have hsnd : (guild.filter fun g => !(decide (g ∈ rest.map fun r => r.thread_id)))
            = guild.filter fun g => !(decide (g ∈ (s :: rest).map fun r => r.thread_id)) := by
          apply List.filter_congr
          intro g hg
          have hgs : g ≠ s.thread_id := by
            intro h
            exact hs (h ▸ hg)
          by_cases h2 : g ∈ rest.map fun r => r.thread_id <;> simp [hgs, h2]
        rw [hfst, hsnd]

/-- C8 amended: at startup, with pairwise-distinct recorded thread ids,
every recorded side-channel that still exists physically is deleted from
the guild but its lifecycle record is retained, and every recorded
side-channel that no longer exists has only its record removed; the
lifecycle table ends holding exactly the records of side-channels that
still existed. -/
theorem c8_startup_record_retention (guild : List Int) (table : List ThreadRow)
    (hnodup : (table.map fun r => r.thread_id).Nodup) :
    thread_manager_on_ready guild table
      = (table.filter fun r => decide (r.thread_id ∈ guild),
         guild.filter fun g => !(decide (g ∈ table.map fun r => r.thread_id))) := by
  cases table with
  | nil => simp [thread_manager_on_ready]
  | cons s rest =>
      unfold thread_manager_on_ready
      rw [if_neg (by simp)]
      rw [thread_loop_spec _ _ _ hnodup]
      congr 1
      apply List.filter_congr
      intro r hr
      by_cases hg : r.thread_id ∈ guild
      · have hdead : r.thread_id ∉
            (((s :: rest).filter fun x => !(decide (x.thread_id ∈ guild))).map
              fun x => x.thread_id) := by
          simp only [List.mem_map, List.mem_filter, Bool.not_eq_true', decide_eq_false_iff_not]
          rintro ⟨a, ⟨ha, hnot⟩, heq⟩
          exact hnot (by rw [heq]; exact hg)
        simp [hg, hdead]
      · have hdead : r.thread_id ∈
            (((s :: rest).filter fun x => !(decide (x.thread_id ∈ guild))).map
              fun x => x.thread_id) := by
          simp only [List.mem_map, List.mem_filter]
          exact ⟨r, ⟨hr, by simp [hg]⟩, rfl⟩
        simp [hg, hdead]

/-- Witness for C8 amended: guild `[1, 3]`, records for threads `1` and
`2`; thread `1` record retained, thread `2` record removed, thread `1`
deleted from the guild. -/
theorem c8_witness :
    thread_manager_on_ready [1, 3] c8_table
      = (c8_table.filter fun r => decide (r.thread_id ∈ [1, 3]),
         [1, 3].filter fun g => !(decide (g ∈ c8_table.map fun r => r.thread_id))) :=
  c8_startup_record_retention [1, 3] c8_table (by decide)

/-! ### C9 — mirror notification hook -/

/-- C9: every successful `add_row` / `edit_row` / `delete_row` ends with a
`_table_updated` notification carrying the table identity, and the
persistence result is the same for every hook — a hook exception is caught
inside `_table_updated` and never propagated.  `table_updated` invokes the
hook exactly once, with the table identity, when the table is registered
for mirroring (a key of the configured `database_config`), and not at
all otherwise. -/
theorem c9_hook_notification (database_config : List String) (store : DbStore)
    (ta : String) (taba : DbTable) (input_row : List (String × String))
    (te : String) (tabe : DbTable) (sc sv tc tv : String)
    (td : String) (tabd : DbTable) (scd svd : String)
    (hadd : alGet store.tables (pyCasefold ta) = some taba)
    (hedit_tab : alGet store.tables te = some tabe)
    (hsc : sc ∈ tabe.columns) (htc : tc ∈ tabe.columns)
    (hmatch : ∃ row ∈ tabe.rows, rowMatches row sc sv = true)
    (hdel_tab : alGet store.tables td = some tabd)
    (hscd : scd ∈ tabd.columns)
    (hmatchd : ∃ row ∈ tabd.rows, rowMatches row scd svd = true) :
    (∃ store₁, ∀ hook, HvzDb.add_row database_config hook store ta input_row
        = Except.ok (store₁, table_updated database_config hook (pyCasefold ta)))
    ∧ (∃ store₂, ∀ hook, HvzDb.edit_row database_config hook store te sc sv tc tv
        = Except.ok (store₂, true, table_updated database_config hook te))
    ∧ (∃ store₃, ∀ hook, HvzDb.delete_row database_config hook store td scd svd
        = Except.ok (store₃, true, table_updated database_config hook td))
    ∧ (∀ hook name,
        (name ∈ database_config → ∃ b, table_updated database_config hook name = [(name, b)])
        ∧ (name ∉ database_config → table_updated database_config hook name = [])) := by
  refine
    ⟨⟨{ store with tables := alSet store.tables (pyCasefold ta) ({ taba with rows := taba.rows ++ [input_row.foldl (fun r p => alSet r (pyCasefold p.1) p.2) []] }) }, fun hook => ?_⟩,
      ⟨{ store with tables := alSet store.tables te ({ tabe with rows := tabe.rows.map fun r => if rowMatches r sc sv then alSet r tc tv else r }) }, fun hook => ?_⟩,
      ⟨{ store with tables := alSet store.tables td ({ tabd with rows := tabd.rows.filter fun r => !(rowMatches r scd svd) }) }, fun hook => ?_⟩,
      fun hook name => ⟨?_, ?_⟩⟩
  · simp [HvzDb.add_row, hadd]
  · have hpos : 0 < (tabe.rows.filter fun r => rowMatches r sc sv).length := by
      obtain ⟨row, hrow, hm⟩ := hmatch
      exact List.length_pos.mpr (List.ne_nil_of_mem (List.mem_filter.mpr ⟨hrow, hm⟩))
    simp [HvzDb.edit_row, hedit_tab, hsc, htc, hpos]
  · have hlt : (tabd.rows.filter fun r => !(rowMatches r scd svd)).length < tabd.rows.length := by
      obtain ⟨row, hrow, hm⟩ := hmatchd
      refine List.length_filter_lt_length_iff_exists.mpr ⟨row, hrow, ?_⟩
      simp [hm]
    have hcond : ¬(tabd.rows.length
        - (tabd.rows.filter fun r => !(rowMatches r scd svd)).length < 1) := by
      omega
    simp [HvzDb.delete_row, hdel_tab, hscd, hcond]
  · intro hname
    unfold table_updated
    rw [if_pos hname]
    cases hook name with
    | ok _ => exact ⟨true, rfl⟩
    | error _ => exact ⟨false, rfl⟩
  · intro hname
    unfold table_updated
    rw [if_neg hname]

/-- A store with a mirrored `members` table and an unmirrored `threads`
table, each holding one row. -/
def c9_store : DbStore :=
  ⟨[("members", ⟨["id", "name"], [[("id", "1"), ("name", "Alice")]]⟩),
    ("threads", ⟨["thread_id"], [[("thread_id", "5")]]⟩)]⟩

/-- Witness for C9 at `c9_store`: an insert into `Members` (case-folded),
an update of the member name and a delete of the thread record. -/
theorem c9_witness :
    (∃ store₁, ∀ hook, HvzDb.add_row ["members"] hook c9_store "Members" [("Name", "Bob")]
        = Except.ok (store₁, table_updated ["members"] hook (pyCasefold "Members")))
    ∧ (∃ store₂, ∀ hook, HvzDb.edit_row ["members"] hook c9_store "members" "id" "1" "name" "Al"
        = Except.ok (store₂, true, table_updated ["members"] hook "members"))
    ∧ (∃ store₃, ∀ hook, HvzDb.delete_row ["members"] hook c9_store "threads" "thread_id" "5"
        = Except.ok (store₃, true, table_updated ["members"] hook "threads"))
    ∧ (∀ hook name,
        (name ∈ ["members"] → ∃ b, table_updated ["members"] hook name = [(name, b)])
        ∧ (name ∉ ["members"] → table_updated ["members"] hook name = [])) :=
  c9_hook_notification ["members"] c9_store
    "Members" ⟨["id", "name"], [[("id", "1"), ("name", "Alice")]]⟩ [("Name", "Bob")]
    "members" ⟨["id", "name"], [[("id", "1"), ("name", "Alice")]]⟩ "id" "1" "name" "Al"
    "threads" ⟨["thread_id"], [[("thread_id", "5")]]⟩ "thread_id" "5"
    rfl rfl (by decide) (by decide) (by decide) rfl (by decide) (by decide)

/-! ### C10 — validation on raw content, storage of cleaned content -/

/-- Whatever branch `receive_store` takes, the stored answer map is the
previous map with the cleaned response stored under the question name. -/
theorem receive_store_state_responses (cb : ChatBot) (q : Question) (response : String) :
    (cb.receive_store q response).state.responses
      = alSet cb.responses q.name (some response) := by
  unfold ChatBot.receive_store
  by_cases hb : cb.last_asked_question + 1 ≥ cb.script.length
  · rw [if_pos hb]
    unfold ChatBot.review
    cases hq1 : cb.script.get_question 1 with
    | none => simp [hq1, RecvRes.state]
    | some q₁ => simp [hq1, RecvRes.state]
  · rw [if_neg hb]
    unfold ChatBot.ask_question
    cases hq2 : cb.script.get_question (cb.last_asked_question + 1) with
    | none => simp [hq2, RecvRes.state]
    | some q₂ => simp [hq2, RecvRes.state]

/-- A literal regex pattern under fullmatch semantics: it matches exactly
its own text. -/
def rx_lit : String → String → Bool := fun p s => p == s

/-- A question whose validation pattern is the literal mention text. -/
def q_mention : Question :=
  ⟨"mention", "Mention", "Mention the tagged player.", some "<@!300>", some "Must be a mention."⟩

/-- A two-question script starting with the mention question. -/
def mention_script : ChatBotScript :=
  ⟨"tag_logging", "Report a tag.", "Done.", "tags", [q_mention, q_code]⟩

/-- A fresh session for the mention script. -/
def cb_mention : ChatBot := mkChatBot mention_script 9 none

/-- A message whose raw content is a mention token and whose cleaned
content is the resolved display text. -/
def msg_mention : Message := ⟨9, true, "<@!300>", "@PlayerName"⟩

/-- C10: validation runs the pattern against the raw `message.content`,
while the stored answer is `message.clean_content`; consequently there are
accepted messages whose stored answer does not itself match the pattern
(here: the raw mention token matches, the stored cleaned text does not). -/
theorem c10_raw_matched_clean_stored :
    (∀ (rx : String → String → Bool) (cb : ChatBot) (msg : Message) (q : Question) (p : String),
        cb.script.get_question cb.last_asked_question = some q →
        q.valid_regex = some p →
        rx p msg.content = true →
        alGet (ChatBot.receive rx cb msg).state.responses q.name
          = some (some msg.clean_content))
    ∧ (∃ (rx : String → String → Bool) (cb : ChatBot) (msg : Message) (q : Question) (p : String),
        cb.script.get_question cb.last_asked_question = some q
        ∧ q.valid_regex = some p
        ∧ rx p msg.content = true
        ∧ alGet (ChatBot.receive rx cb msg).state.responses q.name
            = some (some msg.clean_content)
        ∧ rx p msg.clean_content = false) := by
  constructor
  · intro rx cb msg q p hq hp hrx
    have hstore : ChatBot.receive rx cb msg = cb.receive_store q msg.clean_content := by
      unfold ChatBot.receive
      simp [hq, hp, hrx]
    rw [hstore, receive_store_state_responses]
    exact alGet_alSet_self _ _ _
  · exact ⟨rx_lit, cb_mention, msg_mention, q_mention, "<@!300>", rfl, rfl, rfl, rfl, rfl⟩

end DiscordHvz
